import Mathlib

/-!
Verification development for the monitor execution engine of the
uptime-monitor repository.

The definitions below are a shallow embedding of the code in
`src/server/monitorService.ts`, `src/server/notifier.js` and
`src/server/config.ts`.  JavaScript runtime values flowing through the
engine (JSON payloads, probe results, connection descriptors) are
modelled by the inductive type `JSValue`; machine numbers are modelled
by `Int` (the engine only ever manipulates integral quantities: HTTP
status codes, ports, timeouts, retry counters), with the JavaScript
`NaN` represented as `Option.none` in the `JSNum` alias.  Asynchronous
network operations are abstracted by an `Outcome` environment per
probe: each network step either settles with a value, settles by
rejecting with an error message, or hangs forever.  A probe run returns
an `Option CheckResult` (`none` meaning the awaited probe never
settles) together with the list of network operations it performed.
-/

set_option maxRecDepth 4000

namespace UptimeMonitor

/-! ### JavaScript value model -/

mutual

/-- Model of a JavaScript runtime value as seen by the engine:
`undefined`, `null`, booleans, (integral) numbers, strings, arrays and
plain objects. -/
inductive JSValue where
  | undefV
  | null
  | bool (b : Bool)
  | num (n : Int)
  | str (s : String)
  | arr (items : JSList)
  | obj (fields : JSFields)

/-- A JavaScript array of `JSValue`s. -/
inductive JSList where
  | nil
  | cons (head : JSValue) (tail : JSList)

/-- The fields of a JavaScript object, in insertion order. -/
inductive JSFields where
  | nil
  | cons (key : String) (val : JSValue) (tail : JSFields)

end

/-- The JavaScript number space restricted to the integral fragment the
engine uses; `none` is `NaN`. -/
abbrev JSNum := Option Int

/-- Rendering of a `JSNum` by JavaScript string interpolation. -/
def jsNumToString (n : JSNum) : String :=
  match n with
  | none => "NaN"
  | some i => toString i

/-- Whitespace for the purposes of `String.prototype.trim` and of the
JSON grammar (space, tab, newline, carriage return). -/
def isJsWs (c : Char) : Bool :=
  c = ' ' || c = '\t' || c = '\n' || c = '\r'

/-- Drop leading and trailing whitespace from a character list. -/
def trimChars (cs : List Char) : List Char :=
  ((cs.dropWhile isJsWs).reverse.dropWhile isJsWs).reverse

/-- Model of `String.prototype.trim`. -/
def jsTrim (s : String) : String :=
  String.mk (trimChars s.data)

/-- Decides whether the first list is an initial segment of the second
(model of `String.prototype.startsWith`). -/
def listStarts : List Char → List Char → Bool
  | [], _ => true
  | _ :: _, [] => false
  | p :: ps, c :: cs => p = c && listStarts ps cs

/-- Uppercase a string (model of `String.prototype.toUpperCase` on the
ASCII fragment the engine uses). -/
def strUpper (s : String) : String :=
  String.mk (s.data.map Char.toUpper)

/-- The left brace character, kept out of string literals. -/
def lbrace : Char := Char.ofNat 123

/-- The right brace character, kept out of string literals. -/
def rbrace : Char := Char.ofNat 125

/-- Numeric value of a list of decimal digits. -/
def digitsToNat (ds : List Char) : Nat :=
  ds.foldl (fun acc c => acc * 10 + (c.toNat - 48)) 0

/-- Parse a signed decimal integer, requiring every character to be a
digit (used to model the integral fragment of `Number(...)`). -/
def strToIntOpt (cs : List Char) : Option Int :=
  match cs with
  | '-' :: rest =>
    if rest ≠ [] ∧ rest.all Char.isDigit then some (-(Int.ofNat (digitsToNat rest))) else none
  | _ =>
    if cs ≠ [] ∧ cs.all Char.isDigit then some (Int.ofNat (digitsToNat cs)) else none

/-- Model of the JavaScript `Number(...)` coercion on the integral
fragment used by the engine.  `none` is `NaN`.  Arrays and objects
(never produced by sensible connection configurations) are modelled as
`NaN`; fractional numerals are outside the integral fragment and are
also modelled as `NaN`. -/
def toNumber (v : JSValue) : JSNum :=
  match v with
  | .undefV => none
  | .null => some 0
  | .bool b => some (if b then 1 else 0)
  | .num n => some n
  | .str s =>
    let t := trimChars s.data
    if t = [] then some 0 else strToIntOpt t
  | .arr _ => none
  | .obj _ => none

mutual

/-- Model of the JavaScript `String(...)` coercion.  Arrays join their
elements with commas (`null`/`undefined` elements become empty), plain
objects render as `[object Object]`. -/
def stringCoerce : JSValue → String
  | .undefV => "undefined"
  | .null => "null"
  | .bool b => if b then "true" else "false"
  | .num n => toString n
  | .str s => s
  | .arr items => stringCoerceList items
  | .obj _ => "[object Object]"

/-- Comma join used by `Array.prototype.toString`; `null`/`undefined`
elements render as the empty string. -/
def stringCoerceList : JSList → String
  | .nil => ""
  | .cons .undefV .nil => ""
  | .cons .null .nil => ""
  | .cons v .nil => stringCoerce v
  | .cons .undefV tail => "," ++ stringCoerceList tail
  | .cons .null tail => "," ++ stringCoerceList tail
  | .cons v tail => stringCoerce v ++ "," ++ stringCoerceList tail

end

/-- JSON escaping of a single character, as performed by
`JSON.stringify` on string data. -/
def escapeJsonChar (c : Char) : String :=
  if c = '"' then "\\\""
  else if c = '\\' then "\\\\"
  else if c = '\n' then "\\n"
  else if c = '\t' then "\\t"
  else if c = '\r' then "\\r"
  else if c = Char.ofNat 8 then "\\b"
  else if c = Char.ofNat 12 then "\\f"
  else String.mk [c]

/-- A JSON string literal: quote and escape. -/
def quoteJson (s : String) : String :=
  "\"" ++ String.join (s.data.map escapeJsonChar) ++ "\""

mutual

/-- Model of `JSON.stringify` on engine values.  Inside arrays an
`undefined` element serialises as `null`; inside objects a field whose
value is `undefined` is dropped, both as in JavaScript. -/
def jsonStringify : JSValue → String
  | .undefV => "null"
  | .null => "null"
  | .bool b => if b then "true" else "false"
  | .num n => toString n
  | .str s => quoteJson s
  | .arr items => "[" ++ String.intercalate "," (jsonStringifyList items) ++ "]"
  | .obj fields =>
    String.mk [lbrace] ++ String.intercalate "," (jsonStringifyFields fields) ++ String.mk [rbrace]

/-- Serialised pieces of an array body. -/
def jsonStringifyList : JSList → List String
  | .nil => []
  | .cons v tail => jsonStringify v :: jsonStringifyList tail

/-- Serialised pieces of an object body, skipping `undefined` fields. -/
def jsonStringifyFields : JSFields → List String
  | .nil => []
  | .cons _ .undefV tail => jsonStringifyFields tail
  | .cons k v tail => (quoteJson k ++ ":" ++ jsonStringify v) :: jsonStringifyFields tail

end

/-! ### JSON parser (model of `JSON.parse` on the integral fragment)

The parser follows the JSON grammar; numbers are restricted to the
integral fragment (a fractional or exponent numeral fails to parse,
and the callers then fall back to treating the text as a literal
string).  The `\uXXXX` escape is not modelled. -/

/-- Skip JSON whitespace. -/
def skipWs (cs : List Char) : List Char :=
  cs.dropWhile isJsWs

/-- Parse the body of a JSON string after the opening quote, returning
the decoded characters and the remaining input. -/
def parseJsonStringBody : List Char → Option (List Char × List Char)
  | [] => none
  | '"' :: rest => some ([], rest)
  | '\\' :: rest =>
    match rest with
    | [] => none
    | c :: rest' =>
      let ec : Option Char :=
        if c = '"' then some '"'
        else if c = '\\' then some '\\'
        else if c = '/' then some '/'
        else if c = 'n' then some '\n'
        else if c = 't' then some '\t'
        else if c = 'r' then some '\r'
        else if c = 'b' then some (Char.ofNat 8)
        else if c = 'f' then some (Char.ofNat 12)
        else none
      match ec with
      | some e => (parseJsonStringBody rest').map (fun p => (e :: p.1, p.2))
      | none => none
  | c :: rest =>
    if c.toNat < 32 then none
    else (parseJsonStringBody rest).map (fun p => (c :: p.1, p.2))

/-- Parse a JSON numeral (integral fragment only, leading zeros
rejected as in JSON). -/
def parseJsonNumber (cs : List Char) : Option (JSValue × List Char) :=
  let (neg, cs1) := match cs with
    | '-' :: r => (true, r)
    | _ => (false, cs)
  let ds := cs1.takeWhile Char.isDigit
  let rest := cs1.dropWhile Char.isDigit
  if ds = [] then none
  else if 1 < ds.length ∧ ds.headD '0' = '0' then none
  else
    match rest with
    | '.' :: _ => none
    | 'e' :: _ => none
    | 'E' :: _ => none
    | _ =>
      let n : Int := Int.ofNat (digitsToNat ds)
      some (.num (if neg then -n else n), rest)

mutual

/-- Parse a JSON value.  The fuel argument strictly exceeds the
nesting the remaining input can produce, so it never runs out on the
inputs `jsonParse` supplies. -/
def parseJsonValue : Nat → List Char → Option (JSValue × List Char)
  | 0, _ => none
  | f + 1, cs =>
    match skipWs cs with
    | 'n' :: 'u' :: 'l' :: 'l' :: rest => some (.null, rest)
    | 't' :: 'r' :: 'u' :: 'e' :: rest => some (.bool true, rest)
    | 'f' :: 'a' :: 'l' :: 's' :: 'e' :: rest => some (.bool false, rest)
    | '"' :: rest => (parseJsonStringBody rest).map (fun p => (.str (String.mk p.1), p.2))
    | '[' :: rest =>
      (match skipWs rest with
       | ']' :: rest' => some (.arr .nil, rest')
       | _ => (parseJsonArrayItems f rest).map (fun p => (.arr p.1, p.2)))
    | c :: rest =>
      if c = lbrace then
        (match skipWs rest with
         | c' :: rest' =>
           if c' = rbrace then some (.obj .nil, rest')
           else (parseJsonObjectItems f (c' :: rest')).map (fun p => (.obj p.1, p.2))
         | [] => none)
      else parseJsonNumber (c :: rest)
    | [] => none

/-- Parse the comma-separated items of a non-empty JSON array, up to
and including the closing bracket. -/
def parseJsonArrayItems : Nat → List Char → Option (JSList × List Char)
  | 0, _ => none
  | f + 1, cs =>
    match parseJsonValue f cs with
    | some (v, rest) =>
      (match skipWs rest with
       | ',' :: rest' => (parseJsonArrayItems f rest').map (fun p => (.cons v p.1, p.2))
       | ']' :: rest' => some (.cons v .nil, rest')
       | _ => none)
    | none => none

/-- Parse the comma-separated members of a non-empty JSON object, up
to and including the closing brace. -/
def parseJsonObjectItems : Nat → List Char → Option (JSFields × List Char)
  | 0, _ => none
  | f + 1, cs =>
    match skipWs cs with
    | '"' :: rest =>
      (match parseJsonStringBody rest with
       | some (k, rest1) =>
         (match skipWs rest1 with
          | ':' :: rest2 =>
            (match parseJsonValue f rest2 with
             | some (v, rest3) =>
               (match skipWs rest3 with
                | ',' :: rest4 =>
                  (parseJsonObjectItems f rest4).map
                    (fun p => (.cons (String.mk k) v p.1, p.2))
                | c :: rest4 =>
                  if c = rbrace then some (.cons (String.mk k) v .nil, rest4) else none
                | [] => none)
             | none => none)
          | _ => none)
       | none => none)
    | _ => none

end

/-- Model of `JSON.parse`: parse one value and require only whitespace
to remain; `none` models the thrown `SyntaxError`. -/
def jsonParse (s : String) : Option JSValue :=
  match parseJsonValue (2 * s.data.length + 4) s.data with
  | some (v, rest) => if (skipWs rest).isEmpty then some v else none
  | none => none

/-! ### Shared utilities of `monitorService.ts` -/

/-- True exactly on `null` and `undefined` (the JavaScript `== null`
test and the domain of the `??` operator). -/
def jsLooseNull (v : JSValue) : Bool :=
  match v with
  | .undefV => true
  | .null => true
  | _ => false

/-- Model of the `??` (nullish coalescing) operator. -/
def nullishGetD (v : JSValue) (d : JSValue) : JSValue :=
  if jsLooseNull v then d else v

/-- True exactly when `typeof v === "object" && v !== null`. -/
def jsObjectLike (v : JSValue) : Bool :=
  match v with
  | .arr _ => true
  | .obj _ => true
  | _ => false

/-- True exactly on `JSValue.null`. -/
def jsIsNull (v : JSValue) : Bool :=
  match v with
  | .null => true
  | _ => false

/-- True exactly on `JSValue.undefV`. -/
def jsIsUndefined (v : JSValue) : Bool :=
  match v with
  | .undefV => true
  | _ => false

/-- Property lookup on an object; JavaScript keeps the last binding of
a duplicated key.  A missing property is `undefined`. -/
def fieldsGet (fs : JSFields) (key : String) : JSValue :=
  match fs with
  | .nil => .undefV
  | .cons k v tail =>
    match fieldsGet tail key with
    | .undefV => if k = key then v else .undefV
    | w => w

/-- Index lookup on an array; out of bounds is `undefined`. -/
def jsListGet (items : JSList) (i : Nat) : JSValue :=
  match items, i with
  | .nil, _ => .undefV
  | .cons v _, 0 => v
  | .cons _ tail, n + 1 => jsListGet tail n

/-- Elements of an array coerced with `String(...)` (the
`parsed.map(String)` of `parseRedisCommand`). -/
def jsListToStrings : JSList → List String
  | .nil => []
  | .cons v tail => stringCoerce v :: jsListToStrings tail

/-- Embeds `parseJson` of `monitorService.ts`: `null` for a nullish or
empty input, the parsed value when the text is valid JSON, and `null`
when `JSON.parse` throws.  Rows arrive from the database as JSON text,
so the input is an optional string. -/
def parseJson (value : Option String) : JSValue :=
  match value with
  | none => .null
  | some s => if s = "" then .null else (jsonParse s).getD .null

/-- Embeds `parseHeaders` of `monitorService.ts` on the stored-text
representation: a JSON object yields its entries with values coerced
by `String(...)`; anything else yields no headers. -/
def parseHeadersFields : JSFields → List (String × String)
  | .nil => []
  | .cons k v tail => (k, stringCoerce v) :: parseHeadersFields tail

/-- Embeds `parseHeaders` of `monitorService.ts`. -/
def parseHeaders (headersJson : Option String) : List (String × String) :=
  match headersJson with
  | none => []
  | some s =>
    if s = "" then []
    else
      match parseJson (some s) with
      | .obj fields => parseHeadersFields fields
      | _ => []

/-- Embeds `parseConnection` of `monitorService.ts`: a JSON object
yields its fields; a nullish/empty input, malformed JSON, or JSON that
is not an object silently yields the empty configuration. -/
def parseConnection (connectionJson : Option String) : JSFields :=
  match connectionJson with
  | none => .nil
  | some s =>
    if s = "" then .nil
    else
      match parseJson (some s) with
      | .obj fields => fields
      | _ => .nil

/-- Embeds `normalizeComparable` of `monitorService.ts`: `undefined`
maps to the marker `__UNDEFINED__`, `null` to SQL `NULL` (`none`),
objects and arrays to their `JSON.stringify` form, and other
primitives to their `String(...)` form. -/
def normalizeComparable (v : JSValue) : Option String :=
  match v with
  | .undefV => some "__UNDEFINED__"
  | .null => none
  | .arr _ => some (jsonStringify v)
  | .obj _ => some (jsonStringify v)
  | _ => some (stringCoerce v)

/-- Strict equality (`===`) on the primitive values reaching
`deepEqual`'s fallback branch. -/
def jsStrictEq (l r : JSValue) : Bool :=
  match l, r with
  | .undefV, .undefV => true
  | .null, .null => true
  | .bool a, .bool b => a = b
  | .num a, .num b => a = b
  | .str a, .str b => a = b
  | _, _ => false

/-- Embeds `deepEqual` of `monitorService.ts`: two objects/arrays
compare by their `JSON.stringify` forms, anything else by strict
equality. -/
def deepEqual (l r : JSValue) : Bool :=
  if jsObjectLike l && jsObjectLike r then jsonStringify l == jsonStringify r
  else jsStrictEq l r

/-- Embeds `parseExpectedValue` of `monitorService.ts`: nullish input
becomes `null`, an input trimming to the empty string becomes the
empty string, and otherwise the trimmed text parses as JSON when
possible else stands for itself. -/
def parseExpectedValue (rawValue : Option String) : JSValue :=
  match rawValue with
  | none => .null
  | some s =>
    let trimmed := jsTrim s
    if trimmed = "" then .str ""
    else (jsonParse trimmed).getD (.str trimmed)

/-- Result triple of `validateExpectedProbeValue`. -/
structure ProbeValidationResult where
  ok : Bool
  matchedValue : Option String
  errorMessage : Option String
deriving DecidableEq, Repr

/-- Embeds `validateExpectedProbeValue` of `monitorService.ts`. -/
def validateExpectedProbeValue (actual : JSValue) (expectedRaw : Option String) :
    ProbeValidationResult :=
  match expectedRaw with
  | none => ⟨true, normalizeComparable actual, none⟩
  | some s =>
    if jsTrim s = "" then ⟨true, normalizeComparable actual, none⟩
    else
      let expected := parseExpectedValue (some s)
      let ok := deepEqual actual expected
      ⟨ok, normalizeComparable actual, if ok then none else some "Probe value mismatch"⟩

/-! ### JSON path resolution (`resolveJsonPath`) -/

/-- A token of a dotted/bracketed path expression: a field name or a
bracketed numeric index, as produced by the tokenising regular
expression of `resolveJsonPath`. -/
inductive PathTok where
  | field (s : String)
  | index (n : Nat)
deriving DecidableEq, Repr

/-- Tokenises a path expression: a maximal run of characters other
than `.`, `[`, `]` is a field token, `[digits]` is an index token, and
any other character is skipped, mirroring the global regular
expression match of `resolveJsonPath`. -/
def pathTokensF : Nat → List Char → List PathTok
  | 0, _ => []
  | _, [] => []
  | f + 1, c :: rest =>
    if c = '[' then
      match rest.takeWhile Char.isDigit, rest.dropWhile Char.isDigit with
      | d :: ds, ']' :: rest' => .index (digitsToNat (d :: ds)) :: pathTokensF f rest'
      | _, _ => pathTokensF f rest
    else if c = '.' ∨ c = ']' then pathTokensF f rest
    else
      let run := (c :: rest).takeWhile (fun ch => ¬(ch = '.' ∨ ch = '[' ∨ ch = ']'))
      let rest' := (c :: rest).dropWhile (fun ch => ¬(ch = '.' ∨ ch = '[' ∨ ch = ']'))
      .field (String.mk run) :: pathTokensF f rest'

/-- Tokenise a whole path expression. -/
def pathTokens (s : String) : List PathTok :=
  pathTokensF (s.data.length + 1) s.data

/-- A decimal string that is the canonical rendering of a natural
number; these are the only string keys that address array elements. -/
def canonicalNat (s : String) : Option Nat :=
  if s.data ≠ [] ∧ s.data.all Char.isDigit then
    let n := digitsToNat s.data
    if toString n = s then some n else none
  else none

/-- One step of the reduction inside `resolveJsonPath`: nullish
accumulators and non-object accumulators yield `undefined`, objects
look up the (stringified) key, arrays index. -/
def pathStep (acc : JSValue) (tok : PathTok) : JSValue :=
  if jsLooseNull acc then .undefV
  else
    match acc with
    | .obj fields =>
      (match tok with
       | .field s => fieldsGet fields s
       | .index n => fieldsGet fields (toString n))
    | .arr items =>
      (match tok with
       | .index n => jsListGet items n
       | .field s =>
         (match canonicalNat s with
          | some n => jsListGet items n
          | none => .undefV))
    | _ => .undefV

/-- Embeds `resolveJsonPath` of `monitorService.ts`. -/
def resolveJsonPath (data : JSValue) (path : Option String) : JSValue :=
  match path with
  | none => .undefV
  | some p => if p = "" then .undefV else (pathTokens p).foldl pathStep data

/-! ### Status state machine -/

/-- The debounced status of a monitor endpoint. -/
inductive MonitorStatus where
  | pending
  | up
  | down
deriving DecidableEq, Repr

/-- The protocol kind of a monitor endpoint. -/
inductive MonitorType where
  | http
  | mysql
  | redis
  | nats
  | tcp
deriving DecidableEq, Repr

/-- A monitor endpoint row as read by the engine.  The two
consecutive counters are `Nat`: the corresponding database columns are
nonnegative integers and the engine only ever writes back the
nonnegative outputs of `computeStatus`, so nonnegativity is carried by
the type. -/
structure MonitorEndpoint where
  id : Nat
  group_id : Nat
  group_name : Option String
  name : String
  monitor_type : MonitorType
  url : String
  method : String
  headers_json : Option String
  body_text : Option String
  expected_status : Int
  expected_json_path : Option String
  expected_json_value : Option String
  connection_json : Option String
  probe_command : Option String
  expected_probe_value : Option String
  interval_seconds : Nat
  down_retries : Nat
  up_retries : Nat
  status : MonitorStatus
  consecutive_failures : Nat
  consecutive_successes : Nat
  is_paused : Bool
deriving DecidableEq, Repr

/-- Output triple of `computeStatus`. -/
structure StatusComputation where
  status : MonitorStatus
  failures : Nat
  successes : Nat
deriving DecidableEq, Repr

/-- Embeds `computeStatus` of `monitorService.ts`.  The retry
thresholds are floored to a minimum of one exactly as in the source
(`Math.max(1, Number(...) || 1)`). -/
def computeStatus (endpoint : MonitorEndpoint) (checkPassed : Bool) : StatusComputation :=
  let downRetries := max 1 endpoint.down_retries
  let upRetries := max 1 endpoint.up_retries
  if checkPassed then
    let successes := endpoint.consecutive_successes + 1
    if endpoint.status = .down then
      if upRetries ≤ successes then ⟨.up, 0, successes⟩ else ⟨.down, 0, successes⟩
    else ⟨.up, 0, successes⟩
  else
    let failures := endpoint.consecutive_failures + 1
    if endpoint.status = .up then
      if downRetries ≤ failures then ⟨.down, failures, 0⟩ else ⟨.up, failures, 0⟩
    else if downRetries ≤ failures then ⟨.down, failures, 0⟩
    else ⟨endpoint.status, failures, 0⟩

/-! ### Probe executors

Each asynchronous network step of a probe is abstracted by an
`Outcome`: the awaited operation either settles with a value, settles
by rejecting with an error message, or hangs forever.  A probe run
yields `none` as its result exactly when the awaited probe itself
never settles, and records the network operations it performed. -/

/-- Outcome of one awaited asynchronous operation. -/
inductive Outcome (α : Type) where
  | hang
  | err (msg : String)
  | ok (v : α)

/-- The timeout rejection message produced by `withTimeout`. -/
def timeoutMessage (label : String) (timeoutMs : JSNum) : String :=
  label ++ " timed out after " ++ jsNumToString timeoutMs ++ "ms"

/-- Embeds `withTimeout` of `monitorService.ts`: racing an operation
against a labelled timeout converts a hang into a rejection with the
labelled timeout message and leaves settled outcomes unchanged.  (The
model treats an operation as either settling before the timeout or
hanging.) -/
def withTimeout {α : Type} (o : Outcome α) (timeoutMs : JSNum) (label : String) :
    Except String α :=
  match o with
  | .ok v => .ok v
  | .err m => .error m
  | .hang => .error (timeoutMessage label timeoutMs)

/-- The engine configuration fields used by the probes
(`config.requestTimeoutMs` is finite by construction in
`config.ts`). -/
structure Config where
  requestTimeoutMs : Nat
deriving DecidableEq, Repr

/-- The per-check timeout as a JavaScript number. -/
def Config.timeoutNum (cfg : Config) : JSNum :=
  some (Int.ofNat cfg.requestTimeoutMs)

/-- Result quadruple of one probe execution (`CheckResult` in
`monitorService.ts`). -/
structure CheckResult where
  checkPassed : Bool
  responseCode : Option Int
  matchedValue : Option String
  errorMessage : Option String
deriving DecidableEq, Repr

/-- A network operation performed by a probe, for reasoning about
which calls are attempted and in which order. -/
inductive NetOp where
  | fetchReq (method : String)
  | mysqlConnect
  | mysqlQuery (sql : String)
  | redisConnect
  | redisSend (command : List String)
  | natsConnect
  | jsManager
  | jsAccountInfo
  | jsStreamInfo (name : String)
  | tcpConnect
deriving DecidableEq, Repr

/-- One probe run: the settled result (`none` when the awaited probe
hangs forever) and the network operations performed. -/
structure ProbeRun where
  result : Option CheckResult
  trace : List NetOp
deriving DecidableEq, Repr

/-- The allowed HTTP methods of `monitorService.ts`. -/
def ALLOWED_METHODS : List String :=
  ["GET", "POST", "PUT", "PATCH", "DELETE", "HEAD", "OPTIONS"]

/-- An HTTP response as observed by the probe (status plus body
text). -/
structure HttpResponse where
  status : Int
  body : String
deriving DecidableEq, Repr

/-- Network environment of the HTTP probe. -/
structure HttpEnv where
  fetch : Outcome HttpResponse

/-- The JSON validation pair of an endpoint: present exactly when
`expected_json_path` is truthy and `expected_json_value` is not
nullish. -/
def httpJsonCheck (e : MonitorEndpoint) : Option (String × String) :=
  match e.expected_json_path, e.expected_json_value with
  | some p, some v => if p = "" then none else some (p, v)
  | _, _ => none

/-- The generic status-mismatch message of the HTTP probe. -/
def httpStatusMismatch (expected got : Int) : String :=
  "Expected HTTP " ++ toString expected ++ ", got " ++ toString got

/-- Embeds `runHttpCheck` of `monitorService.ts`.  An unsupported
method is silently replaced by `GET`; the request-level timeout is an
`AbortController`, so a hanging fetch settles by rejecting with the
abort error. -/
def runHttpCheck (cfg : Config) (e : MonitorEndpoint) (env : HttpEnv) : ProbeRun :=
  let method := if ALLOWED_METHODS.contains e.method then e.method else "GET"
  let _headers := parseHeaders e.headers_json
  let _abortAfterMs := cfg.requestTimeoutMs
  match env.fetch with
  | .hang => ⟨some ⟨false, none, none, some "This operation was aborted"⟩, [.fetchReq method]⟩
  | .err m => ⟨some ⟨false, none, none, some m⟩, [.fetchReq method]⟩
  | .ok resp =>
    let responseCode := some resp.status
    match httpJsonCheck e with
    | some (path, expectedJsonValue) =>
      let parsed := parseJson (some resp.body)
      if jsIsNull parsed then
        ⟨some ⟨false, responseCode, none,
          some "Expected JSON response but payload was not valid JSON"⟩, [.fetchReq method]⟩
      else
        let actual := resolveJsonPath parsed (some path)
        let expected := parseExpectedValue (some expectedJsonValue)
        let matchedValue := if jsIsUndefined actual then none else normalizeComparable actual
        let jsonValidationOk := deepEqual actual expected
        let checkPassed := (resp.status = e.expected_status) && jsonValidationOk
        let errorMessage :=
          if jsonValidationOk then
            if checkPassed then none
            else some (httpStatusMismatch e.expected_status resp.status)
          else some ("JSON path mismatch at \"" ++ path ++ "\"")
        ⟨some ⟨checkPassed, responseCode, matchedValue, errorMessage⟩, [.fetchReq method]⟩
    | none =>
      let checkPassed := resp.status = e.expected_status
      let errorMessage :=
        if checkPassed then none else some (httpStatusMismatch e.expected_status resp.status)
      ⟨some ⟨decide (resp.status = e.expected_status), responseCode, none, errorMessage⟩,
        [.fetchReq method]⟩

/-- Rows returned by a SQL query: a list of row objects. -/
abbrev MysqlRows := List JSFields

/-- Network environment of the MySQL probe. -/
structure MysqlEnv where
  connect : Outcome Unit
  query : Outcome MysqlRows

/-- The probe statement of a SQL check (`probe_command?.trim() ||
'SELECT 1 AS health'`). -/
def mysqlQueryText (e : MonitorEndpoint) : String :=
  match e.probe_command with
  | none => "SELECT 1 AS health"
  | some pc => if jsTrim pc = "" then "SELECT 1 AS health" else jsTrim pc

/-- First column of the first returned row, `null` when there is no
row or the first column name is falsy. -/
def mysqlFirstValue (rows : MysqlRows) : JSValue :=
  match rows with
  | [] => .null
  | row :: _ =>
    match row with
    | .nil => .null
    | .cons k v _ => if k = "" then .null else v

/-- Shared tail of the four comparator-based probes: validate the
probed value and build the check result. -/
def probeValidationResultToCheck (actualValue : JSValue) (expectedRaw : Option String) :
    CheckResult :=
  let er := validateExpectedProbeValue actualValue expectedRaw
  ⟨er.ok, some (if er.ok then 200 else 500), er.matchedValue, er.errorMessage⟩

/-- Embeds `runMysqlCheck` of `monitorService.ts`.  Both forms of
`mysql.createConnection` (connection URL or discrete fields) and the
`conn.query` call are awaited bare — neither is wrapped in
`withTimeout`.  The driver itself bounds only the TCP-connect phase
through its `connectTimeout` (passed explicitly in the discrete-fields
branch, the driver's own default in the URL branch); a connect attempt
the driver bounds settles in the environment as an `err` outcome (for
example `connect ETIMEDOUT`), while `Outcome.hang` models an await the
driver does not bound (for example a handshake-phase stall, possible
in either branch), which hangs the probe.  The query await has no
bound of any kind, so a hanging query hangs the probe. -/
def runMysqlCheck (cfg : Config) (e : MonitorEndpoint) (env : MysqlEnv) : ProbeRun :=
  let _connection := parseConnection e.connection_json
  let _connectTimeoutMs := cfg.requestTimeoutMs
  match env.connect with
  | .hang => ⟨none, [.mysqlConnect]⟩
  | .err m => ⟨some ⟨false, some 500, none, some m⟩, [.mysqlConnect]⟩
  | .ok _ =>
    let sql := mysqlQueryText e
    match env.query with
    | .hang => ⟨none, [.mysqlConnect, .mysqlQuery sql]⟩
    | .err m => ⟨some ⟨false, some 500, none, some m⟩, [.mysqlConnect, .mysqlQuery sql]⟩
    | .ok rows =>
      ⟨some (probeValidationResultToCheck (mysqlFirstValue rows) e.expected_probe_value),
        [.mysqlConnect, .mysqlQuery sql]⟩

/-- Split a string on runs of whitespace, dropping empty pieces
(`probeCommand.trim().split(/\s+/).filter(Boolean)`). -/
def splitWsWordsAux : List Char → List Char → List String
  | [], acc => if acc = [] then [] else [String.mk acc.reverse]
  | c :: rest, acc =>
    if isJsWs c then
      if acc = [] then splitWsWordsAux rest []
      else String.mk acc.reverse :: splitWsWordsAux rest []
    else splitWsWordsAux rest (c :: acc)

/-- Split a string on whitespace into its nonempty words. -/
def splitWsWords (s : String) : List String :=
  splitWsWordsAux s.data []

/-- Embeds `parseRedisCommand` of `monitorService.ts`: a blank probe
command defaults to `PING`; a JSON array with elements yields its
parts coerced with `String(...)`; anything else is whitespace
tokenised. -/
def parseRedisCommand (probeCommand : Option String) : List String :=
  match probeCommand with
  | none => ["PING"]
  | some s =>
    if jsTrim s = "" then ["PING"]
    else
      match parseJson (some s) with
      | .arr (.cons v tail) => jsListToStrings (.cons v tail)
      | _ => splitWsWords s

/-- Network environment of the Redis probe. -/
structure RedisEnv where
  connect : Outcome Unit
  sendCommand : Outcome JSValue

/-- Modelled behavior of the node-redis client constructor's eager URL
parse: a connection URL is accepted exactly when its (whitespace
trimmed, as the URL parser itself trims) scheme is `redis://` or
`rediss://`; any other URL makes the constructor throw synchronously. -/
def redisUrlAccepted (url : String) : Bool :=
  listStarts "redis://".data (jsTrim url).data ||
    listStarts "rediss://".data (jsTrim url).data

/-- The synchronous outcome of the `createClient` call of
`runRedisCheck` (`monitorService.ts` lines 366-381), which sits
outside the probe's try/catch.  The URL form is selected exactly when
`connection.url` is a string with nonempty trim, and the constructor
then parses that URL eagerly, throwing for a non-redis scheme
(`TypeError: Invalid protocol`; an unparseable URL throws from the
same eager parse, collapsed into the same modelled message).  The
discrete-fields (socket) form constructs without throwing. -/
def redisCreateClient (e : MonitorEndpoint) : Except String Unit :=
  match fieldsGet (parseConnection e.connection_json) "url" with
  | .str s =>
    if jsTrim s = "" then .ok ()
    else if redisUrlAccepted s then .ok ()
    else .error "Invalid protocol"
  | _ => .ok ()

/-- Embeds `runRedisCheck` of `monitorService.ts`.  The client
construction happens before the try/catch, so its synchronous throw
escapes the probe — the function yields `Except.error` exactly then.
Inside the try/catch both the connect and the command await are raced
against the request timeout via `withTimeout`, and every failure is
caught and converted into a failed check result. -/
def runRedisCheck (cfg : Config) (e : MonitorEndpoint) (env : RedisEnv) :
    Except String ProbeRun :=
  match redisCreateClient e with
  | .error m => .error m
  | .ok _ =>
    .ok
      (match withTimeout env.connect cfg.timeoutNum "Redis connect" with
       | .error m => ⟨some ⟨false, some 500, none, some m⟩, [.redisConnect]⟩
       | .ok _ =>
         let command := parseRedisCommand e.probe_command
         match withTimeout env.sendCommand cfg.timeoutNum "Redis command" with
         | .error m =>
           ⟨some ⟨false, some 500, none, some m⟩, [.redisConnect, .redisSend command]⟩
         | .ok rawResult =>
           let commandName := strUpper (command.headD "")
           let expectedRaw :=
             match e.expected_probe_value with
             | some v => some v
             | none => if commandName = "PING" then some "\"PONG\"" else none
           ⟨some (probeValidationResultToCheck rawResult expectedRaw),
             [.redisConnect, .redisSend command]⟩)

/-- Network environment of the NATS probe.  `accountInfo` reports
whether `getAccountInfo` settled with a non-null value; `streamInfo`
reports `streamInfo?.config?.name ?? null`. -/
structure NatsEnv where
  connect : Outcome Unit
  jetstreamMgr : Outcome Unit
  accountInfo : Outcome Bool
  streamInfo : Outcome (Option String)

/-- The probe command of a NATS check (`probe_command?.trim() ||
'jetstream.info'`). -/
def natsCommand (e : MonitorEndpoint) : String :=
  match e.probe_command with
  | none => "jetstream.info"
  | some pc => if jsTrim pc = "" then "jetstream.info" else jsTrim pc

/-- The resolved server list of a NATS connection descriptor
(`connection.servers ?? connection.server ?? connection.url ??
'nats://127.0.0.1:4222'`). -/
def natsServers (connection : JSFields) : List String :=
  let serversRaw :=
    nullishGetD (fieldsGet connection "servers")
      (nullishGetD (fieldsGet connection "server")
        (nullishGetD (fieldsGet connection "url") (.str "nats://127.0.0.1:4222")))
  match serversRaw with
  | .arr items => jsListToStrings items
  | v => [stringCoerce v]

/-- Shared tail of the NATS probe. -/
def finishNats (e : MonitorEndpoint) (actualValue : JSValue) (trace : List NetOp) : ProbeRun :=
  let expectedRaw :=
    match e.expected_probe_value with
    | some v => some v
    | none => some "\"ok\""
  ⟨some (probeValidationResultToCheck actualValue expectedRaw), trace⟩

/-- Embeds `runNatsCheck` of `monitorService.ts`.  The connection and
the two JetStream requests are raced against the request timeout; the
`nc.jetstreamManager()` await is not wrapped, so a hang there hangs
the probe.  The empty-stream-name validation happens after the
connection has been established. -/
def runNatsCheck (cfg : Config) (e : MonitorEndpoint) (env : NatsEnv) : ProbeRun :=
  let connection := parseConnection e.connection_json
  let _servers := natsServers connection
  match withTimeout env.connect cfg.timeoutNum "NATS connect" with
  | .error m => ⟨some ⟨false, some 500, none, some m⟩, [.natsConnect]⟩
  | .ok _ =>
    let command := natsCommand e
    if command = "jetstream.info" then
      match env.jetstreamMgr with
      | .hang => ⟨none, [.natsConnect, .jsManager]⟩
      | .err m => ⟨some ⟨false, some 500, none, some m⟩, [.natsConnect, .jsManager]⟩
      | .ok _ =>
        match withTimeout env.accountInfo cfg.timeoutNum "JetStream info" with
        | .error m =>
          ⟨some ⟨false, some 500, none, some m⟩, [.natsConnect, .jsManager, .jsAccountInfo]⟩
        | .ok b =>
          finishNats e (if b then .str "ok" else .null)
            [.natsConnect, .jsManager, .jsAccountInfo]
    else if listStarts "stream.info:".data command.data then
      let streamName := jsTrim (String.mk (command.data.drop 12))
      if streamName = "" then
        ⟨some ⟨false, some 500, none, some "stream.info command requires stream name"⟩,
          [.natsConnect]⟩
      else
        match env.jetstreamMgr with
        | .hang => ⟨none, [.natsConnect, .jsManager]⟩
        | .err m => ⟨some ⟨false, some 500, none, some m⟩, [.natsConnect, .jsManager]⟩
        | .ok _ =>
          match withTimeout env.streamInfo cfg.timeoutNum "JetStream stream info" with
          | .error m =>
            ⟨some ⟨false, some 500, none, some m⟩,
              [.natsConnect, .jsManager, .jsStreamInfo streamName]⟩
          | .ok nameOpt =>
            finishNats e (match nameOpt with | some n => .str n | none => .null)
              [.natsConnect, .jsManager, .jsStreamInfo streamName]
    else
      finishNats e (.str "ok") [.natsConnect]

/-- Network environment of the TCP probe. -/
structure TcpEnv where
  connect : Outcome Unit

/-- The port of a TCP connection descriptor
(`Number(connection.port ?? 80)`). -/
def tcpConnPort (e : MonitorEndpoint) : JSNum :=
  toNumber (nullishGetD (fieldsGet (parseConnection e.connection_json) "port") (.num 80))

/-- The timeout of a TCP connection descriptor
(`Number(connection.timeoutMs ?? config.requestTimeoutMs)`). -/
def tcpConnTimeout (cfg : Config) (e : MonitorEndpoint) : JSNum :=
  toNumber
    (nullishGetD (fieldsGet (parseConnection e.connection_json) "timeoutMs")
      (.num (Int.ofNat cfg.requestTimeoutMs)))

/-- The port validation of the TCP probe:
`!Number.isFinite(port) || port < 1 || port > 65535`. -/
def tcpPortInvalid (port : JSNum) : Bool :=
  match port with
  | none => true
  | some p => if p < 1 then true else if 65535 < p then true else false

/-- Embeds `runTcpCheck` of `monitorService.ts`.  The port is
validated before any connection attempt; the socket connect is raced
against the configured timeout. -/
def runTcpCheck (cfg : Config) (e : MonitorEndpoint) (env : TcpEnv) : ProbeRun :=
  let connection := parseConnection e.connection_json
  let _host := stringCoerce (nullishGetD (fieldsGet connection "host") (.str "127.0.0.1"))
  let port := tcpConnPort e
  let timeoutMs := tcpConnTimeout cfg e
  if tcpPortInvalid port then
    ⟨some ⟨false, some 500, none, some "Invalid TCP port in connection_json"⟩, []⟩
  else
    match withTimeout env.connect timeoutMs "TCP connect" with
    | .error m => ⟨some ⟨false, some 500, none, some m⟩, [.tcpConnect]⟩
    | .ok _ =>
      let expectedRaw :=
        match e.expected_probe_value with
        | some v => some v
        | none => some "\"open\""
      ⟨some (probeValidationResultToCheck (.str "open") expectedRaw), [.tcpConnect]⟩

/-! ### Check execution: persistence and the notification gate -/

/-- The endpoint columns written back by the `UPDATE` statement of
`runCheck` (`NOW()` at the time of the update is the parameter
`now`). -/
structure UpdatedEndpointRow where
  status : MonitorStatus
  consecutive_failures : Nat
  consecutive_successes : Nat
  last_checked_at : Nat
  last_response_code : Option Int
  last_error : Option String
  last_match_value : Option String
  next_check_at : Nat
deriving DecidableEq, Repr

/-- The immutable check-run record appended by `runCheck`. -/
structure CheckRunRecord where
  endpoint_id : Nat
  status : MonitorStatus
  response_code : Option Int
  matched_value : Option String
  error_message : Option String
  response_time_ms : Nat
deriving DecidableEq, Repr

/-- The status transition event handed to `notifyStatusChange`. -/
structure StatusChangeEvent where
  endpointId : Nat
  endpointName : String
  groupId : Nat
  groupName : Option String
  monitorType : MonitorType
  url : String
  previousStatus : MonitorStatus
  currentStatus : MonitorStatus
  responseCode : Option Int
  responseTimeMs : Nat
  checkedAt : String
  errorMessage : Option String
  matchedValue : Option String
deriving DecidableEq, Repr

/-- Embeds the post-probe portion of `runCheck` of
`monitorService.ts`: a paused endpoint refuses the check (`null`);
otherwise the status machine runs, the endpoint row is updated with
`next_check_at = now + interval_seconds`, a check-run record is
appended, and a status transition event is produced exactly when the
status changed and the new status is `up` or `down`. -/
def runCheckModel (e : MonitorEndpoint) (result : CheckResult) (now : Nat)
    (responseTimeMs : Nat) (checkedAt : String) :
    Option (UpdatedEndpointRow × CheckRunRecord × Option StatusChangeEvent) :=
  if e.is_paused then none
  else
    let previousStatus := e.status
    let next := computeStatus e result.checkPassed
    let row : UpdatedEndpointRow :=
      ⟨next.status, next.failures, next.successes, now, result.responseCode,
        result.errorMessage, result.matchedValue, now + e.interval_seconds⟩
    let record : CheckRunRecord :=
      ⟨e.id, next.status, result.responseCode, result.matchedValue, result.errorMessage,
        responseTimeMs⟩
    let event : Option StatusChangeEvent :=
      if previousStatus ≠ next.status ∧ (next.status = .up ∨ next.status = .down) then
        some ⟨e.id, e.name, e.group_id, e.group_name, e.monitor_type, e.url, previousStatus,
          next.status, result.responseCode, responseTimeMs, checkedAt, result.errorMessage,
          result.matchedValue⟩
      else none
    some (row, record, event)

/-! ### Notification dispatcher (`notifier.js`) -/

/-- A configured notification target as resolved by `config.ts`. -/
structure NotificationTarget where
  name : Option String
  kind : String
  events : Option (List String)
deriving DecidableEq, Repr

/-- The notification configuration visible to `notifyStatusChange`. -/
structure NotifierConfig where
  enabled : Bool
  targets : Option (List NotificationTarget)
deriving DecidableEq, Repr

/-- Embeds `isValidEvent` of `notifier.js`. -/
def isValidEvent (status : MonitorStatus) : Bool :=
  match status with
  | .up => true
  | .down => true
  | .pending => false

/-- The string key of a status, as carried in target event lists. -/
def statusKey (status : MonitorStatus) : String :=
  match status with
  | .pending => "pending"
  | .up => "up"
  | .down => "down"

/-- True when a target's subscribed event list exists and excludes the
event's new status (`Array.isArray(target.events) &&
!target.events.includes(event.currentStatus)`). -/
def targetSkips (t : NotificationTarget) (ev : StatusChangeEvent) : Bool :=
  match t.events with
  | some evs => !(evs.contains (statusKey ev.currentStatus))
  | none => false

/-- What happened to one target during a dispatch: skipped as
unsubscribed, delivered, or failed with the failure caught and
logged. -/
inductive DeliveryLog where
  | skipped (i : Nat)
  | delivered (i : Nat)
  | failedLogged (i : Nat) (msg : String)
deriving DecidableEq, Repr

/-- The per-target fan-out of `notifyStatusChange`
(`config.notifications.targets.map(...)` with the running index made
explicit).  `deliver i` abstracts the delivery attempt to target `i`
(`notifyTarget`): a rejection carries the error message that the
source catches and logs. -/
def notifyLoop (deliver : Nat → Except String Unit) (ev : StatusChangeEvent) :
    Nat → List NotificationTarget → List DeliveryLog
  | _, [] => []
  | i, t :: ts =>
    (if targetSkips t ev then DeliveryLog.skipped i
     else
       match deliver i with
       | .ok _ => DeliveryLog.delivered i
       | .error m => DeliveryLog.failedLogged i m) :: notifyLoop deliver ev (i + 1) ts

/-- Embeds `notifyStatusChange` of `notifier.js`.  The function
returns the per-target delivery log: it never rejects, every failure
being caught inside the per-target callback. -/
def notifyStatusChange (cfg : NotifierConfig) (ev : StatusChangeEvent)
    (deliver : Nat → Except String Unit) : List DeliveryLog :=
  if !cfg.enabled then []
  else if !isValidEvent ev.currentStatus then []
  else
    match cfg.targets with
    | none => []
    | some [] => []
    | some ts => notifyLoop deliver ev 0 ts

/-- The delay of the `setTimeout` at the bottom of `notifier.js`. -/
def notifierStartupDelayMs : Nat := 2000

/-- The hard-coded event that the `setTimeout` block at the bottom of
`notifier.js` passes to `notifyStatusChange` two seconds after module
load, outside the execution of any check. -/
def notifierStartupEvent : StatusChangeEvent :=
  ⟨12, "Payments API", 3, some "Payments", .http,
    "https://api.example.com/payments/health", .up, .down, some 503, 1842,
    "2026-02-20T15:30:00.000Z", some "Expected HTTP 200, got 503", none⟩

/-! ### Sample data shared by the witnesses -/

/-- A baseline endpoint: an unpaused pending HTTP monitor with
`interval_seconds = 60`, `down_retries = 3`, `up_retries = 2` and no
optional configuration. -/
def pendingStart : MonitorEndpoint :=
  ⟨1, 1, some "Core", "api", .http, "https://example.com/health", "GET", none, none, 200,
    none, none, none, none, none, 60, 3, 2, .pending, 0, 0, false⟩

/-- A sample engine configuration with the default 10000ms request
timeout. -/
def cfg0 : Config := ⟨10000⟩

/-! ### Helper lemmas -/

/-- The comparator reports an error exactly when it fails. -/
theorem validate_ok_iff (actual : JSValue) (raw : Option String) :
    ((validateExpectedProbeValue actual raw).ok = false ↔
      (validateExpectedProbeValue actual raw).errorMessage ≠ none) := by
  cases raw with
  | none => simp [validateExpectedProbeValue]
  | some s =>
    by_cases h : jsTrim s = ""
    · simp [validateExpectedProbeValue, h]
    · simp only [validateExpectedProbeValue, h, if_neg, ite_false]
      cases hd : deepEqual actual (parseExpectedValue (some s)) <;> simp [hd]

/-- The comparator-based check result reports an error exactly when it
fails. -/
theorem probeCheck_ok_iff (actual : JSValue) (raw : Option String) :
    ((probeValidationResultToCheck actual raw).checkPassed = false ↔
      (probeValidationResultToCheck actual raw).errorMessage ≠ none) := by
  simpa [probeValidationResultToCheck] using validate_ok_iff actual raw

/-! ### Claims -/

/-- C1: the status state machine.  On a pass the consecutive
successes increment and the failures reset, a `down` endpoint becomes
`up` exactly once the incremented successes reach the floored
`upRetries` (otherwise it stays `down`), and a `pending` or `up`
endpoint becomes `up` unconditionally; on a fail the consecutive
failures increment and the successes reset, and the status becomes
`down` exactly when the incremented failures reach the floored
`downRetries` (otherwise it is unchanged, in particular an already
`down` endpoint stays `down`).  The concrete trace of the claim
follows: from `(pending, 0, 0)` with `downRetries = 3`,
`upRetries = 2`, one fail gives `(pending, 1, 0)`, two more fails give
`(down, 3, 0)`, one pass gives `(down, 0, 1)`, and a second
consecutive pass gives `(up, 0, 2)`. -/
theorem computeStatus_transitions :
    (∀ e : MonitorEndpoint,
      computeStatus e true =
        ⟨if e.status = .down ∧ e.consecutive_successes + 1 < max 1 e.up_retries then .down
            else .up,
          0, e.consecutive_successes + 1⟩ ∧
      computeStatus e false =
        ⟨if max 1 e.down_retries ≤ e.consecutive_failures + 1 then .down else e.status,
          e.consecutive_failures + 1, 0⟩) ∧
    computeStatus pendingStart false = ⟨.pending, 1, 0⟩ ∧
    computeStatus { pendingStart with consecutive_failures := 1 } false = ⟨.pending, 2, 0⟩ ∧
    computeStatus { pendingStart with consecutive_failures := 2 } false = ⟨.down, 3, 0⟩ ∧
    computeStatus { pendingStart with status := .down, consecutive_failures := 3 } true =
      ⟨.down, 0, 1⟩ ∧
    computeStatus { pendingStart with status := .down, consecutive_successes := 1 } true =
      ⟨.up, 0, 2⟩ := by
  refine ⟨fun e => ⟨?_, ?_⟩, by decide, by decide, by decide, by decide, by decide⟩
  · simp only [computeStatus]
    split_ifs <;>
      first
        | rfl
        | (exfalso; simp_all <;> omega)
  · simp only [computeStatus]
    split_ifs <;> simp_all

/-- C10: counter invariant of the status state machine.  The returned
counters are nonnegative, at least one of them is zero, and after a
passing probe the returned status is never `pending`. -/
theorem computeStatus_counter_invariant :
    ∀ (e : MonitorEndpoint) (b : Bool),
      (0 ≤ ((computeStatus e b).failures : Int) ∧
        0 ≤ ((computeStatus e b).successes : Int)) ∧
      ((computeStatus e b).failures = 0 ∨ (computeStatus e b).successes = 0) ∧
      (computeStatus e true).status ≠ .pending := by
  intro e b
  refine ⟨⟨Int.natCast_nonneg _, Int.natCast_nonneg _⟩, ?_, ?_⟩
  · cases b <;> simp only [computeStatus] <;> split_ifs <;> simp
  · simp only [computeStatus]
    split_ifs <;> simp

/-- C2: after any executed (non-refused) check, the persisted row has
`next_check_at` equal to the update time plus exactly the endpoint's
`interval_seconds`. -/
theorem runCheck_advances_next_check_at :
    ∀ (e : MonitorEndpoint) (result : CheckResult) (now rtMs : Nat) (checkedAt : String)
      (row : UpdatedEndpointRow) (rcd : CheckRunRecord) (ev : Option StatusChangeEvent),
      runCheckModel e result now rtMs checkedAt = some (row, rcd, ev) →
      row.next_check_at = now + e.interval_seconds := by
  intro e result now rtMs checkedAt row rcd ev h
  cases hp : e.is_paused with
  | true => simp [runCheckModel, hp] at h
  | false =>
    simp only [runCheckModel, hp, Bool.false_eq_true, if_false, Option.some.injEq,
      Prod.mk.injEq] at h
    obtain ⟨h1, -, -⟩ := h
    subst h1
    rfl

/-- Witness for C2 at a concrete endpoint and check result. -/
theorem runCheck_advances_next_check_at_witness :
    runCheckModel pendingStart ⟨false, some 500, none, some "boom"⟩ 1000 5 "t" =
      some (⟨.pending, 1, 0, 1000, some 500, some "boom", none, 1060⟩,
        ⟨1, .pending, some 500, none, some "boom", 5⟩, none) ∧
    (⟨.pending, 1, 0, 1000, some 500, some "boom", none,
        1060⟩ : UpdatedEndpointRow).next_check_at = 1000 + pendingStart.interval_seconds :=
  ⟨by decide,
    runCheck_advances_next_check_at pendingStart ⟨false, some 500, none, some "boom"⟩ 1000 5
      "t" ⟨.pending, 1, 0, 1000, some 500, some "boom", none, 1060⟩
      ⟨1, .pending, some 500, none, some "boom", 5⟩ none (by decide)⟩

/-- C3: the comparator.  A nullish or blank expected raw value always
succeeds with `matchedValue` the canonical form of the actual value
(`undefined` mapping to the `__UNDEFINED__` marker, distinct from
`null` which maps to SQL `NULL`); otherwise the expected raw value
parses as JSON when possible (else stands for its trimmed literal
self) and is compared by `deepEqual` — strict equality on primitives,
`JSON.stringify`-form equality when both sides are objects/arrays —
with the failure message `Probe value mismatch`.  The three concrete
cases of the claim follow: `compare(5, "5")` succeeds,
`compare({a:1}, '{"a":1}')` succeeds, and `compare("PONG",
"\"pong\"")` is a case-sensitive mismatch. -/
theorem comparator_spec :
    (∀ actual, validateExpectedProbeValue actual none =
      ⟨true, normalizeComparable actual, none⟩) ∧
    (∀ actual s, jsTrim s = "" →
      validateExpectedProbeValue actual (some s) =
        ⟨true, normalizeComparable actual, none⟩) ∧
    (∀ actual s, jsTrim s ≠ "" →
      validateExpectedProbeValue actual (some s) =
        ⟨deepEqual actual (parseExpectedValue (some s)), normalizeComparable actual,
          if deepEqual actual (parseExpectedValue (some s)) then none
          else some "Probe value mismatch"⟩) ∧
    (∀ s, jsTrim s ≠ "" →
      parseExpectedValue (some s) = (jsonParse (jsTrim s)).getD (.str (jsTrim s))) ∧
    (∀ l r, jsObjectLike l = true → jsObjectLike r = true →
      deepEqual l r = (jsonStringify l == jsonStringify r)) ∧
    normalizeComparable .undefV = some "__UNDEFINED__" ∧
    normalizeComparable .null = none ∧
    validateExpectedProbeValue (.num 5) (some "5") = ⟨true, some "5", none⟩ ∧
    validateExpectedProbeValue (.obj (.cons "a" (.num 1) .nil)) (some "\x7b\"a\":1\x7d") =
      ⟨true, some "\x7b\"a\":1\x7d", none⟩ ∧
    validateExpectedProbeValue (.str "PONG") (some "\"pong\"") =
      ⟨false, some "PONG", some "Probe value mismatch"⟩ := by
  refine ⟨fun actual => rfl, fun actual s h => ?_, fun actual s h => ?_, fun s h => ?_,
    fun l r hl hr => ?_, rfl, rfl, by decide, by decide, by decide⟩
  · simp [validateExpectedProbeValue, h]
  · simp [validateExpectedProbeValue, h]
  · simp [parseExpectedValue, h]
  · simp [deepEqual, hl, hr]

/-- Witness for C3: the blank-expected branch and the general
comparison branch applied at concrete inputs. -/
theorem comparator_spec_witness :
    jsTrim "  " = "" ∧
    validateExpectedProbeValue .null (some "  ") = ⟨true, none, none⟩ ∧
    jsTrim "5" ≠ "" ∧
    validateExpectedProbeValue (.bool true) (some "5") =
      ⟨deepEqual (.bool true) (parseExpectedValue (some "5")),
        normalizeComparable (.bool true),
        if deepEqual (.bool true) (parseExpectedValue (some "5")) then none
        else some "Probe value mismatch"⟩ :=
  ⟨by decide, comparator_spec.2.1 .null "  " (by decide), by decide,
    comparator_spec.2.2.1 (.bool true) "5" (by decide)⟩

/-- Every settled HTTP probe result reports an error exactly when it
fails. -/
theorem runHttpCheck_error_iff (cfg : Config) (e : MonitorEndpoint) (env : HttpEnv)
    (r : CheckResult) (h : (runHttpCheck cfg e env).result = some r) :
    (r.checkPassed = false ↔ r.errorMessage ≠ none) := by
  obtain ⟨fetch⟩ := env
  cases fetch with
  | hang =>
    simp only [runHttpCheck, Option.some.injEq] at h
    subst h; simp
  | err m =>
    simp only [runHttpCheck, Option.some.injEq] at h
    subst h; simp
  | ok resp =>
    rcases hjc : httpJsonCheck e with - | ⟨path, vexp⟩
    · simp only [runHttpCheck, hjc, Option.some.injEq] at h
      subst h
      by_cases hs : resp.status = e.expected_status <;> simp [hs]
    · by_cases hn : jsIsNull (parseJson (some resp.body))
      · simp only [runHttpCheck, hjc, hn, if_true, Option.some.injEq] at h
        subst h; simp
      · simp only [runHttpCheck, hjc, hn, if_false, Option.some.injEq, Bool.false_eq_true,
          ite_false] at h
        subst h
        by_cases hok : deepEqual (resolveJsonPath (parseJson (some resp.body)) (some path))
            (parseExpectedValue (some vexp)) <;>
          by_cases hs : resp.status = e.expected_status <;>
          simp [hok, hs]

/-- Every settled MySQL probe result reports an error exactly when it
fails. -/
theorem runMysqlCheck_error_iff (cfg : Config) (e : MonitorEndpoint) (env : MysqlEnv)
    (r : CheckResult) (h : (runMysqlCheck cfg e env).result = some r) :
    (r.checkPassed = false ↔ r.errorMessage ≠ none) := by
  obtain ⟨con, qry⟩ := env
  cases con <;> cases qry <;>
    simp only [runMysqlCheck, Option.some.injEq] at h <;>
    first
      | (subst h; first | exact probeCheck_ok_iff _ _ | simp)
      | exact absurd h (by simp)

/-- Every settled result of a successfully constructed Redis probe
reports an error exactly when it fails. -/
theorem runRedisCheck_error_iff (cfg : Config) (e : MonitorEndpoint) (env : RedisEnv)
    (run : ProbeRun) (r : CheckResult) (hrun : runRedisCheck cfg e env = Except.ok run)
    (h : run.result = some r) :
    (r.checkPassed = false ↔ r.errorMessage ≠ none) := by
  obtain ⟨con, snd⟩ := env
  cases hcc : redisCreateClient e with
  | error m => simp [runRedisCheck, hcc] at hrun
  | ok u =>
    simp only [runRedisCheck, hcc, Except.ok.injEq] at hrun
    subst hrun
    cases con <;> cases snd <;>
      simp only [withTimeout, Option.some.injEq] at h <;>
      (subst h; first | exact probeCheck_ok_iff _ _ | simp)

/-- Every settled NATS probe result reports an error exactly when it
fails. -/
theorem runNatsCheck_error_iff (cfg : Config) (e : MonitorEndpoint) (env : NatsEnv)
    (r : CheckResult) (h : (runNatsCheck cfg e env).result = some r) :
    (r.checkPassed = false ↔ r.errorMessage ≠ none) := by
  obtain ⟨con, jsm, ai, si⟩ := env
  cases con with
  | hang =>
    simp only [runNatsCheck, withTimeout, Option.some.injEq] at h
    subst h; simp
  | err m =>
    simp only [runNatsCheck, withTimeout, Option.some.injEq] at h
    subst h; simp
  | ok u =>
    by_cases hc : natsCommand e = "jetstream.info"
    · cases jsm <;> cases ai <;>
        simp only [runNatsCheck, withTimeout, hc, if_true, Option.some.injEq,
          finishNats] at h <;>
        first
          | (subst h; first | exact probeCheck_ok_iff _ _ | simp)
          | exact absurd h (by simp)
    · by_cases hsi : listStarts "stream.info:".data (natsCommand e).data
      · by_cases hname : jsTrim (String.mk ((natsCommand e).data.drop 12)) = ""
        · simp only [runNatsCheck, withTimeout, hc, hsi, hname, if_true, if_false,
            Bool.false_eq_true, ite_false, ite_true, Option.some.injEq] at h
          subst h; simp
        · cases jsm <;> cases si <;>
            simp only [runNatsCheck, withTimeout, hc, hsi, hname, if_true, if_false,
              Bool.false_eq_true, ite_false, ite_true, Option.some.injEq, finishNats] at h <;>
            first
              | (subst h; first | exact probeCheck_ok_iff _ _ | simp)
              | exact absurd h (by simp)
      · simp only [runNatsCheck, withTimeout, hc, hsi, if_false, Bool.false_eq_true,
          ite_false, Option.some.injEq, finishNats] at h
        subst h
        exact probeCheck_ok_iff _ _

/-- Every settled TCP probe result reports an error exactly when it
fails. -/
theorem runTcpCheck_error_iff (cfg : Config) (e : MonitorEndpoint) (env : TcpEnv)
    (r : CheckResult) (h : (runTcpCheck cfg e env).result = some r) :
    (r.checkPassed = false ↔ r.errorMessage ≠ none) := by
  obtain ⟨con⟩ := env
  by_cases hp : tcpPortInvalid (tcpConnPort e)
  · simp only [runTcpCheck, hp, if_true, Option.some.injEq] at h
    subst h; simp
  · cases con <;>
      simp only [runTcpCheck, withTimeout, hp, if_false, Bool.false_eq_true, ite_false,
        Option.some.injEq] at h <;>
      (subst h; first | exact probeCheck_ok_iff _ _ | simp)

/-- A Redis endpoint whose connection URL has a non-redis scheme. -/
def badUrlRedisEndpoint : MonitorEndpoint :=
  { pendingStart with
      monitor_type := MonitorType.redis
      connection_json := some "\x7b\"url\":\"http://h\"\x7d" }

/-- C4 counterexample: the Redis probe can throw.  Its client
construction sits outside the try/catch, and the constructor's eager
URL parse throws synchronously for a connection URL with a non-redis
scheme, so the probe rejects instead of returning a result object —
contradicting the claim that every probe executor never throws and
returns a result object for every input. -/
theorem redis_probe_throws :
    runRedisCheck cfg0 badUrlRedisEndpoint ⟨Outcome.ok (), Outcome.ok JSValue.null⟩ =
      Except.error "Invalid protocol" := by
  rfl

/-- C4 (amended): every failure occurring inside a probe's try/catch
— network, timeout, protocol or validation — is converted into
`passed = false` with a non-null error message, a settled result
failing exactly when it carries such a message, and the HTTP and TCP
executors return a result object for every input; but the executors do
not never-throw and do not always return: the Redis executor
constructs its client outside the try/catch and the constructor's
eager URL parse throws synchronously for a connection URL with a
non-redis scheme (the probe then rejects, propagating that error), and
the MySQL connect/query and NATS `jetstreamManager()` awaits carry no
timeout, so a hang there leaves the probe without any result (the
MySQL and NATS executors return a result whenever those awaits
settle). -/
theorem probes_error_reporting :
    (∀ cfg e env r, (runHttpCheck cfg e env).result = some r →
      (r.checkPassed = false ↔ r.errorMessage ≠ none)) ∧
    (∀ cfg e env r, (runMysqlCheck cfg e env).result = some r →
      (r.checkPassed = false ↔ r.errorMessage ≠ none)) ∧
    (∀ cfg e env run r, runRedisCheck cfg e env = Except.ok run → run.result = some r →
      (r.checkPassed = false ↔ r.errorMessage ≠ none)) ∧
    (∀ cfg e env r, (runNatsCheck cfg e env).result = some r →
      (r.checkPassed = false ↔ r.errorMessage ≠ none)) ∧
    (∀ cfg e env r, (runTcpCheck cfg e env).result = some r →
      (r.checkPassed = false ↔ r.errorMessage ≠ none)) ∧
    (∀ cfg e env, (runHttpCheck cfg e env).result.isSome = true) ∧
    (∀ cfg e env, (runTcpCheck cfg e env).result.isSome = true) ∧
    (∀ cfg e (env : RedisEnv) m, redisCreateClient e = Except.error m →
      runRedisCheck cfg e env = Except.error m) ∧
    (∀ cfg e (env : RedisEnv), redisCreateClient e = Except.ok () →
      ∃ run, runRedisCheck cfg e env = Except.ok run ∧ run.result.isSome = true) ∧
    (∀ cfg e (env : MysqlEnv), env.connect ≠ Outcome.hang → env.query ≠ Outcome.hang →
      (runMysqlCheck cfg e env).result.isSome = true) ∧
    (∀ cfg e (env : NatsEnv), env.jetstreamMgr ≠ Outcome.hang →
      (runNatsCheck cfg e env).result.isSome = true) ∧
    (∀ cfg e (env : MysqlEnv), env.connect = Outcome.ok () → env.query = Outcome.hang →
      (runMysqlCheck cfg e env).result = none) := by
  refine ⟨runHttpCheck_error_iff, runMysqlCheck_error_iff, runRedisCheck_error_iff,
    runNatsCheck_error_iff, runTcpCheck_error_iff, ?_, ?_, ?_, ?_, ?_, ?_, ?_⟩
  · intro cfg e env
    obtain ⟨fetch⟩ := env
    cases fetch with
    | hang => simp [runHttpCheck]
    | err m => simp [runHttpCheck]
    | ok resp =>
      rcases hjc : httpJsonCheck e with - | ⟨path, vexp⟩ <;>
        by_cases hn : jsIsNull (parseJson (some resp.body)) <;>
        simp [runHttpCheck, hjc, hn]
  · intro cfg e env
    obtain ⟨con⟩ := env
    by_cases hp : tcpPortInvalid (tcpConnPort e) <;>
      cases con <;> simp [runTcpCheck, withTimeout, hp]
  · intro cfg e env m hcc
    simp [runRedisCheck, hcc]
  · intro cfg e env hcc
    obtain ⟨con, snd⟩ := env
    simp only [runRedisCheck, hcc]
    refine ⟨_, rfl, ?_⟩
    cases con <;> cases snd <;> simp [withTimeout]
  · intro cfg e env hc hq
    obtain ⟨con, qry⟩ := env
    cases con <;> cases qry <;>
      first
        | exact absurd rfl hc
        | exact absurd rfl hq
        | simp [runMysqlCheck]
  · intro cfg e env hj
    obtain ⟨con, jsm, ai, si⟩ := env
    cases con with
    | hang => simp [runNatsCheck, withTimeout]
    | err m => simp [runNatsCheck, withTimeout]
    | ok u =>
      by_cases hc : natsCommand e = "jetstream.info"
      · cases jsm with
        | hang => exact absurd rfl hj
        | err m => simp [runNatsCheck, withTimeout, hc]
        | ok v => cases ai <;> simp [runNatsCheck, withTimeout, hc, finishNats]
      · by_cases hsi : listStarts "stream.info:".data (natsCommand e).data
        · by_cases hname : jsTrim (String.mk ((natsCommand e).data.drop 12)) = ""
          · simp [runNatsCheck, withTimeout, hc, hsi, hname]
          · cases jsm with
            | hang => exact absurd rfl hj
            | err m => simp [runNatsCheck, withTimeout, hc, hsi, hname]
            | ok v =>
              cases si <;> simp [runNatsCheck, withTimeout, hc, hsi, hname, finishNats]
        · simp [runNatsCheck, withTimeout, hc, hsi, finishNats]
  · intro cfg e env hc hq
    obtain ⟨con, qry⟩ := env
    simp only at hc hq
    subst hc; subst hq
    simp [runMysqlCheck]

/-- Witness for C4 (amended): a rejected HTTP fetch surfaces as a
failed check with its error message; the non-redis connection URL
makes the Redis probe reject; the socket-form Redis client constructs
and its probe settles; a settled MySQL environment yields a settled
result. -/
theorem probes_error_reporting_witness :
    (runHttpCheck cfg0 pendingStart ⟨Outcome.err "connect ECONNREFUSED"⟩).result =
      some ⟨false, none, none, some "connect ECONNREFUSED"⟩ ∧
    ((false = false) ↔ ((some "connect ECONNREFUSED" : Option String) ≠ none)) ∧
    redisCreateClient badUrlRedisEndpoint = Except.error "Invalid protocol" ∧
    runRedisCheck cfg0 badUrlRedisEndpoint ⟨Outcome.ok (), Outcome.ok JSValue.null⟩ =
      Except.error "Invalid protocol" ∧
    redisCreateClient pendingStart = Except.ok () ∧
    (∃ run, runRedisCheck cfg0 pendingStart ⟨Outcome.ok (), Outcome.ok JSValue.null⟩ =
        Except.ok run ∧ run.result.isSome = true) ∧
    (⟨Outcome.ok (), Outcome.ok []⟩ : MysqlEnv).connect ≠ Outcome.hang ∧
    (⟨Outcome.ok (), Outcome.ok []⟩ : MysqlEnv).query ≠ Outcome.hang ∧
    (runMysqlCheck cfg0 pendingStart ⟨Outcome.ok (), Outcome.ok []⟩).result.isSome = true :=
  ⟨by decide,
    probes_error_reporting.1 cfg0 pendingStart ⟨Outcome.err "connect ECONNREFUSED"⟩
      ⟨false, none, none, some "connect ECONNREFUSED"⟩ (by decide),
    rfl,
    probes_error_reporting.2.2.2.2.2.2.2.1 cfg0 badUrlRedisEndpoint
      ⟨Outcome.ok (), Outcome.ok JSValue.null⟩ "Invalid protocol" rfl,
    rfl,
    probes_error_reporting.2.2.2.2.2.2.2.2.1 cfg0 pendingStart
      ⟨Outcome.ok (), Outcome.ok JSValue.null⟩ rfl,
    by simp,
    by simp,
    probes_error_reporting.2.2.2.2.2.2.2.2.2.1 cfg0 pendingStart
      ⟨Outcome.ok (), Outcome.ok []⟩ (by simp) (by simp)⟩

/-- A MySQL endpoint with the default (empty) connection
configuration. -/
def mysqlPending : MonitorEndpoint := { pendingStart with monitor_type := MonitorType.mysql }

/-- C5 counterexample: the MySQL probe-command execution is not raced
against any timeout.  With a connection that settles and a query that
hangs, the probe itself hangs (its result never settles) and no
labelled timeout error is produced, contradicting the claim that
every network-facing step of the MySQL probe is bounded by an
explicit timeout. -/
theorem mysql_query_has_no_timeout :
    runMysqlCheck cfg0 mysqlPending ⟨Outcome.ok (), Outcome.hang⟩ =
      ⟨none, [NetOp.mysqlConnect, NetOp.mysqlQuery "SELECT 1 AS health"]⟩ := by
  decide

/-- C5 (amended): every network-facing step of the Redis, NATS and
TCP probes — the Redis connect and command, the NATS connect and the
JetStream account-info and stream-info requests, the TCP connect — is
raced via `withTimeout` against a timeout that rejects with a labelled
timeout error; the MySQL probe wraps none of its steps in such a race
(its connect is bounded only by the driver's own `connectTimeout`,
which covers only the TCP-connect phase, so a connect await the driver
does not bound hangs the probe, and the probe-command execution has no
timeout at all, a hanging query hanging the probe), and the NATS
`jetstreamManager()` await is likewise unwrapped. -/
theorem probe_timeout_wrapping :
    (∀ cfg e (env : RedisEnv), redisCreateClient e = Except.ok () →
      env.connect = Outcome.hang →
      runRedisCheck cfg e env =
        Except.ok
          ⟨some ⟨false, some 500, none,
              some (timeoutMessage "Redis connect" cfg.timeoutNum)⟩,
            [NetOp.redisConnect]⟩) ∧
    (∀ cfg e (env : RedisEnv), redisCreateClient e = Except.ok () →
      env.connect = Outcome.ok () → env.sendCommand = Outcome.hang →
      runRedisCheck cfg e env =
        Except.ok
          ⟨some ⟨false, some 500, none,
              some (timeoutMessage "Redis command" cfg.timeoutNum)⟩,
            [NetOp.redisConnect, NetOp.redisSend (parseRedisCommand e.probe_command)]⟩) ∧
    (∀ cfg e (env : NatsEnv), env.connect = Outcome.hang →
      runNatsCheck cfg e env =
        ⟨some ⟨false, some 500, none, some (timeoutMessage "NATS connect" cfg.timeoutNum)⟩,
          [NetOp.natsConnect]⟩) ∧
    (∀ cfg e (env : NatsEnv), natsCommand e = "jetstream.info" →
      env.connect = Outcome.ok () → env.jetstreamMgr = Outcome.ok () →
      env.accountInfo = Outcome.hang →
      (runNatsCheck cfg e env).result =
        some ⟨false, some 500, none,
          some (timeoutMessage "JetStream info" cfg.timeoutNum)⟩) ∧
    (∀ cfg e (env : NatsEnv), natsCommand e = "stream.info:s1" →
      env.connect = Outcome.ok () → env.jetstreamMgr = Outcome.ok () →
      env.streamInfo = Outcome.hang →
      (runNatsCheck cfg e env).result =
        some ⟨false, some 500, none,
          some (timeoutMessage "JetStream stream info" cfg.timeoutNum)⟩) ∧
    (∀ cfg e (env : TcpEnv), tcpPortInvalid (tcpConnPort e) = false →
      env.connect = Outcome.hang →
      (runTcpCheck cfg e env).result =
        some ⟨false, some 500, none,
          some (timeoutMessage "TCP connect" (tcpConnTimeout cfg e))⟩) ∧
    (∀ cfg e (env : NatsEnv), natsCommand e = "jetstream.info" →
      env.connect = Outcome.ok () → env.jetstreamMgr = Outcome.hang →
      (runNatsCheck cfg e env).result = none) ∧
    (∀ cfg e (env : MysqlEnv), env.connect = Outcome.hang →
      (runMysqlCheck cfg e env).result = none) ∧
    (∀ cfg e (env : MysqlEnv), env.connect = Outcome.ok () → env.query = Outcome.hang →
      (runMysqlCheck cfg e env).result = none) := by
  refine ⟨?_, ?_, ?_, ?_, ?_, ?_, ?_, ?_, ?_⟩
  · intro cfg e env hcc hc
    obtain ⟨con, snd⟩ := env
    simp only at hc
    subst hc
    simp [runRedisCheck, hcc, withTimeout]
  · intro cfg e env hcc hc hs
    obtain ⟨con, snd⟩ := env
    simp only at hc hs
    subst hc; subst hs
    simp [runRedisCheck, hcc, withTimeout]
  · intro cfg e env hc
    obtain ⟨con, jsm, ai, si⟩ := env
    simp only at hc
    subst hc
    simp [runNatsCheck, withTimeout]
  · intro cfg e env hcmd hc hj ha
    obtain ⟨con, jsm, ai, si⟩ := env
    simp only at hc hj ha
    subst hc; subst hj; subst ha
    simp [runNatsCheck, withTimeout, hcmd]
  · intro cfg e env hcmd hc hj hs
    obtain ⟨con, jsm, ai, si⟩ := env
    simp only at hc hj hs
    subst hc; subst hj; subst hs
    have h1 : ¬(("stream.info:s1" : String) = "jetstream.info") := by decide
    have h2 : listStarts "stream.info:".data "stream.info:s1".data = true := by decide
    have h3 : jsTrim (String.mk ("stream.info:s1".data.drop 12)) = "s1" := by decide
    have h4 : ¬(("s1" : String) = "") := by decide
    have h5 : jsTrim "s1" = "s1" := by decide
    simp [runNatsCheck, withTimeout, hcmd, h1, h2, h3, h4, h5]
  · intro cfg e env hp hc
    obtain ⟨con⟩ := env
    simp only at hc
    subst hc
    simp [runTcpCheck, withTimeout, hp]
  · intro cfg e env hcmd hc hj
    obtain ⟨con, jsm, ai, si⟩ := env
    simp only at hc hj
    subst hc; subst hj
    simp [runNatsCheck, withTimeout, hcmd]
  · intro cfg e env hc
    obtain ⟨con, qry⟩ := env
    simp only at hc
    subst hc
    simp [runMysqlCheck]
  · intro cfg e env hc hq
    obtain ⟨con, qry⟩ := env
    simp only at hc hq
    subst hc; subst hq
    simp [runMysqlCheck]

/-- Witness for C5 (amended): the socket-form Redis client constructs
without throwing and a hanging Redis connect settles as a failed check
carrying the labelled timeout message. -/
theorem probe_timeout_wrapping_witness :
    redisCreateClient pendingStart = Except.ok () ∧
    (⟨Outcome.hang, Outcome.ok JSValue.null⟩ : RedisEnv).connect = Outcome.hang ∧
    runRedisCheck cfg0 pendingStart ⟨Outcome.hang, Outcome.ok JSValue.null⟩ =
      Except.ok
        ⟨some ⟨false, some 500, none,
            some (timeoutMessage "Redis connect" cfg0.timeoutNum)⟩,
          [NetOp.redisConnect]⟩ ∧
    timeoutMessage "Redis connect" cfg0.timeoutNum =
      "Redis connect timed out after 10000ms" :=
  ⟨rfl, rfl,
    probe_timeout_wrapping.1 cfg0 pendingStart ⟨Outcome.hang, Outcome.ok JSValue.null⟩
      rfl rfl,
    by decide⟩

/-- An HTTP endpoint whose method is not in the allowed set. -/
def frobEndpoint : MonitorEndpoint := { pendingStart with method := "FROB" }

/-- C6 counterexample: an unsupported HTTP method is not detected
before the network call and not surfaced as a failed check — it is
silently replaced by `GET`, the request is issued, and the check can
pass. -/
theorem unsupported_method_not_surfaced :
    runHttpCheck cfg0 frobEndpoint ⟨Outcome.ok ⟨200, ""⟩⟩ =
      ⟨some ⟨true, some 200, none, none⟩, [NetOp.fetchReq "GET"]⟩ := by
  decide

/-- C6 (amended): an invalid TCP port is detected before any network
call and surfaced as a failed check with a descriptive error; an
unsupported HTTP method is instead silently replaced by `GET` before
the request is issued, and malformed connection JSON is silently
replaced by the empty configuration object, with no failed check
surfaced for either. -/
theorem config_error_surfacing :
    (∀ cfg e (env : TcpEnv), tcpPortInvalid (tcpConnPort e) = true →
      runTcpCheck cfg e env =
        ⟨some ⟨false, some 500, none, some "Invalid TCP port in connection_json"⟩, []⟩) ∧
    (∀ cfg e (env : HttpEnv), e.method ∉ ALLOWED_METHODS →
      (runHttpCheck cfg e env).trace = [NetOp.fetchReq "GET"]) ∧
    (∀ s, jsonParse s = none → parseConnection (some s) = JSFields.nil) := by
  refine ⟨?_, ?_, ?_⟩
  · intro cfg e env hp
    simp [runTcpCheck, hp]
  · intro cfg e env hm
    obtain ⟨fetch⟩ := env
    cases fetch with
    | hang => simp [runHttpCheck, hm]
    | err m => simp [runHttpCheck, hm]
    | ok resp =>
      rcases hjc : httpJsonCheck e with - | ⟨path, vexp⟩ <;>
        by_cases hn : jsIsNull (parseJson (some resp.body)) <;>
        simp [runHttpCheck, hjc, hn, hm]
  · intro s h
    by_cases hs : s = ""
    · simp [parseConnection, hs]
    · simp [parseConnection, hs, parseJson, h]

/-- A TCP endpoint whose connection descriptor carries an
out-of-range port. -/
def badPortEndpoint : MonitorEndpoint :=
  { pendingStart with
      monitor_type := MonitorType.tcp
      connection_json := some "\x7b\"port\":99999\x7d" }

/-- Witness for C6 (amended): the out-of-range port fails the check
before any connection attempt. -/
theorem config_error_surfacing_witness :
    tcpPortInvalid (tcpConnPort badPortEndpoint) = true ∧
    runTcpCheck cfg0 badPortEndpoint ⟨Outcome.ok ()⟩ =
      ⟨some ⟨false, some 500, none, some "Invalid TCP port in connection_json"⟩, []⟩ ∧
    frobEndpoint.method ∉ ALLOWED_METHODS ∧
    (runHttpCheck cfg0 frobEndpoint ⟨Outcome.ok ⟨200, ""⟩⟩).trace = [NetOp.fetchReq "GET"] :=
  ⟨by decide, config_error_surfacing.1 cfg0 badPortEndpoint ⟨Outcome.ok ()⟩ (by decide),
    by decide, config_error_surfacing.2.1 cfg0 frobEndpoint ⟨Outcome.ok ⟨200, ""⟩⟩ (by decide)⟩

/-- A NATS endpoint whose probe command names no stream. -/
def emptyStreamEndpoint : MonitorEndpoint :=
  { pendingStart with
      monitor_type := MonitorType.nats
      probe_command := some "stream.info:" }

/-- C9 counterexample: with an empty stream name the NATS probe does
attempt the connection to the messaging servers — the validation
failure is produced only after a successful connect, and when the
connect fails its network error (not the validation error) is
reported. -/
theorem nats_empty_stream_connects :
    runNatsCheck cfg0 emptyStreamEndpoint
        ⟨Outcome.ok (), Outcome.ok (), Outcome.ok true, Outcome.ok none⟩ =
      ⟨some ⟨false, some 500, none, some "stream.info command requires stream name"⟩,
        [NetOp.natsConnect]⟩ ∧
    (runNatsCheck cfg0 emptyStreamEndpoint
        ⟨Outcome.err "connection refused", Outcome.ok (), Outcome.ok true,
          Outcome.ok none⟩).result =
      some ⟨false, some 500, none, some "connection refused"⟩ := by
  decide

/-- C9 (amended): a `stream.info:` probe command with an empty stream
name fails with the local validation error `stream.info command
requires stream name` and never issues the stream-info request, but
only after the connection to the messaging servers has been attempted:
the trace of the run contains exactly the connect operation, and when
the connect fails the reported error is the connection error. -/
theorem nats_stream_name_validation :
    ∀ cfg e (env : NatsEnv), natsCommand e = "stream.info:" →
      (env.connect = Outcome.ok () →
        runNatsCheck cfg e env =
          ⟨some ⟨false, some 500, none, some "stream.info command requires stream name"⟩,
            [NetOp.natsConnect]⟩) ∧
      (∀ m, env.connect = Outcome.err m →
        runNatsCheck cfg e env =
          ⟨some ⟨false, some 500, none, some m⟩, [NetOp.natsConnect]⟩) := by
  intro cfg e env hcmd
  obtain ⟨con, jsm, ai, si⟩ := env
  have h1 : ¬(("stream.info:" : String) = "jetstream.info") := by decide
  have h2 : listStarts "stream.info:".data "stream.info:".data = true := by decide
  have h3 : jsTrim (String.mk ("stream.info:".data.drop 12)) = "" := by decide
  have h4 : jsTrim "" = "" := by decide
  constructor
  · intro hc
    simp only at hc
    subst hc
    simp [runNatsCheck, withTimeout, hcmd, h1, h2, h3, h4]
  · intro m hc
    simp only at hc
    subst hc
    simp [runNatsCheck, withTimeout, hcmd]

/-- Witness for C9 (amended): the empty-stream-name endpoint applied
to a successfully connecting environment. -/
theorem nats_stream_name_validation_witness :
    natsCommand emptyStreamEndpoint = "stream.info:" ∧
    runNatsCheck cfg0 emptyStreamEndpoint
        ⟨Outcome.ok (), Outcome.ok (), Outcome.ok true, Outcome.ok none⟩ =
      ⟨some ⟨false, some 500, none, some "stream.info command requires stream name"⟩,
        [NetOp.natsConnect]⟩ :=
  ⟨by decide,
    (nats_stream_name_validation cfg0 emptyStreamEndpoint
      ⟨Outcome.ok (), Outcome.ok (), Outcome.ok true, Outcome.ok none⟩ (by decide)).1 rfl⟩

/-- C7: the `setTimeout` block at the bottom of `notifier.js` invokes
the Notification Dispatcher 2000ms after module load with a hard-coded
fabricated `up → down` event — outside the execution of any check —
and with notifications enabled and a subscribed target configured that
startup invocation is delivered. -/
theorem notifier_startup_call :
    notifierStartupDelayMs = 2000 ∧
    notifierStartupEvent.previousStatus = MonitorStatus.up ∧
    notifierStartupEvent.currentStatus = MonitorStatus.down ∧
    notifierStartupEvent.endpointId = 12 ∧
    notifyStatusChange ⟨true, some [⟨some "ops", "webhook", none⟩]⟩ notifierStartupEvent
        (fun _ => Except.ok ()) = [DeliveryLog.delivered 0] := by
  decide

/-- The length of the notification fan-out equals the number of
configured targets. -/
theorem notifyLoop_length (deliver : Nat → Except String Unit) (ev : StatusChangeEvent) :
    ∀ (ts : List NotificationTarget) (i : Nat),
      (notifyLoop deliver ev i ts).length = ts.length := by
  intro ts
  induction ts with
  | nil => intro i; rfl
  | cons hd tl ih => intro i; simp [notifyLoop, ih]

/-- The entry of the notification fan-out at position `j` depends only
on the target at `j` and on that target's own delivery outcome. -/
theorem notifyLoop_get (deliver : Nat → Except String Unit) (ev : StatusChangeEvent) :
    ∀ (ts : List NotificationTarget) (i j : Nat) (t : NotificationTarget),
      ts.get? j = some t →
      (notifyLoop deliver ev i ts).get? j =
        some (if targetSkips t ev then DeliveryLog.skipped (i + j)
          else
            match deliver (i + j) with
            | .ok _ => DeliveryLog.delivered (i + j)
            | .error m => DeliveryLog.failedLogged (i + j) m) := by
  intro ts
  induction ts with
  | nil => intro i j t h; simp at h
  | cons hd tl ih =>
    intro i j t h
    cases j with
    | zero =>
      simp only [List.get?_cons_zero, Option.some.injEq] at h
      subst h
      simp [notifyLoop]
    | succ j' =>
      simp only [List.get?_cons_succ] at h
      have hrec := ih (i + 1) j' t h
      have harith : i + 1 + j' = i + (j' + 1) := by omega
      rw [harith] at hrec
      simpa [notifyLoop, List.get?_cons_succ] using hrec

/-- With a valid event and enabled notifications the dispatcher is the
plain fan-out loop. -/
theorem notifyStatusChange_eq_loop (ts : List NotificationTarget) (ev : StatusChangeEvent)
    (d : Nat → Except String Unit) (hv : isValidEvent ev.currentStatus = true) :
    notifyStatusChange ⟨true, some ts⟩ ev d = notifyLoop d ev 0 ts := by
  cases ts <;> simp [notifyStatusChange, hv, notifyLoop]

/-- C8: the notification dispatcher.  It is a no-op when notifications
are globally disabled, when the event's new status is `pending`, or
when no targets are configured; otherwise the target at each position
is attempted exactly when its subscribed event set includes the new
status, a failing delivery is caught and logged as its own entry, each
entry depends only on that target's own delivery outcome (so one
target's failure cannot affect another's delivery), and the dispatch
always returns its log normally — in the concrete two-target instance
the first target's thrown failure is logged while the second is still
delivered. -/
theorem notifyStatusChange_spec :
    (∀ cfg ev d, cfg.enabled = false → notifyStatusChange cfg ev d = []) ∧
    (∀ cfg ev d, ev.currentStatus = MonitorStatus.pending →
      notifyStatusChange cfg ev d = []) ∧
    (∀ en ev d, notifyStatusChange ⟨en, none⟩ ev d = [] ∧
      notifyStatusChange ⟨en, some []⟩ ev d = []) ∧
    (∀ ts ev d j t, ts.get? j = some t → isValidEvent ev.currentStatus = true →
      (notifyStatusChange ⟨true, some ts⟩ ev d).get? j =
        some (if targetSkips t ev then DeliveryLog.skipped j
          else
            match d j with
            | .ok _ => DeliveryLog.delivered j
            | .error m => DeliveryLog.failedLogged j m)) ∧
    (∀ ts ev (d d' : Nat → Except String Unit) j,
      isValidEvent ev.currentStatus = true → d j = d' j →
      (notifyStatusChange ⟨true, some ts⟩ ev d).get? j =
        (notifyStatusChange ⟨true, some ts⟩ ev d').get? j) ∧
    notifyStatusChange
        ⟨true, some [⟨some "a", "webhook", none⟩, ⟨some "b", "slack", none⟩]⟩
        notifierStartupEvent (fun i => if i = 0 then Except.error "boom" else Except.ok ()) =
      [DeliveryLog.failedLogged 0 "boom", DeliveryLog.delivered 1] := by
  refine ⟨?_, ?_, ?_, ?_, ?_, by decide⟩
  · intro cfg ev d h
    obtain ⟨en, tg⟩ := cfg
    simp only at h
    subst h
    simp [notifyStatusChange]
  · intro cfg ev d h
    obtain ⟨en, tg⟩ := cfg
    cases en <;> simp [notifyStatusChange, isValidEvent, h]
  · intro en ev d
    cases en <;> exact ⟨by simp [notifyStatusChange], by simp [notifyStatusChange]⟩
  · intro ts ev d j t hj hv
    rw [notifyStatusChange_eq_loop ts ev d hv]
    simpa using notifyLoop_get d ev ts 0 j t hj
  · intro ts ev d d' j hv hdd
    rw [notifyStatusChange_eq_loop ts ev d hv, notifyStatusChange_eq_loop ts ev d' hv]
    rcases hts : ts.get? j with - | t
    · have hlen : ts.length ≤ j := List.get?_eq_none.mp hts
      have h1 : (notifyLoop d ev 0 ts).get? j = none := by
        apply List.get?_eq_none.mpr
        rw [notifyLoop_length]
        exact hlen
      have h2 : (notifyLoop d' ev 0 ts).get? j = none := by
        apply List.get?_eq_none.mpr
        rw [notifyLoop_length]
        exact hlen
      rw [h1, h2]
    · have h1 := notifyLoop_get d ev ts 0 j t hts
      have h2 := notifyLoop_get d' ev ts 0 j t hts
      rw [h1, h2]
      simp only [Nat.zero_add]
      rw [hdd]

/-- Witness for C8: globally disabled notifications are a no-op, and
the attempted-entry description applied at a concrete subscribed
target. -/
theorem notifyStatusChange_spec_witness :
    (⟨false, some [⟨some "a", "webhook", none⟩]⟩ : NotifierConfig).enabled = false ∧
    notifyStatusChange ⟨false, some [⟨some "a", "webhook", none⟩]⟩ notifierStartupEvent
      (fun _ => Except.ok ()) = [] ∧
    ([⟨some "a", "webhook", none⟩] : List NotificationTarget).get? 0 =
      some ⟨some "a", "webhook", none⟩ ∧
    isValidEvent notifierStartupEvent.currentStatus = true ∧
    (notifyStatusChange ⟨true, some [⟨some "a", "webhook", none⟩]⟩ notifierStartupEvent
        (fun _ => Except.ok ())).get? 0 =
      some (if targetSkips ⟨some "a", "webhook", none⟩ notifierStartupEvent then
          DeliveryLog.skipped 0
        else
          match Except.ok () with
          | .ok _ => DeliveryLog.delivered 0
          | .error m => DeliveryLog.failedLogged 0 m) :=
  ⟨rfl,
    notifyStatusChange_spec.1 ⟨false, some [⟨some "a", "webhook", none⟩]⟩
      notifierStartupEvent (fun _ => Except.ok ()) rfl,
    rfl, rfl,
    notifyStatusChange_spec.2.2.2.1 [⟨some "a", "webhook", none⟩] notifierStartupEvent
      (fun _ => Except.ok ()) 0 ⟨some "a", "webhook", none⟩ rfl rfl⟩

end UptimeMonitor
